import Mathlib

/-!
Verification of the hrflow-connectors pull/transform/push pipeline.

Shallow embedding of the connector code in
`src/hrflow_connectors/connectors/{smartrecruiters,taleez,breezyhr}`:
HTTP transport is modeled by explicit response oracles passed as function
arguments, and every operation returns the trace of requests it issued
together with an `Except` value (`.error` models a raised Python exception).
-/

/-- `response.ok` of the python requests library: true exactly when the
status code is below 400 (`raise_for_status` raises for 4xx and 5xx). -/
def responseOk (status : Nat) : Bool := status < 400

/-- Python string interpolation of an optional value: `None` is rendered as
the literal string "None" inside an f-string, as happens in the BreezyHR
URLs when the company id was never resolved. -/
def pyStr : Option String → String
  | none => "None"
  | some s => s

/-- Python `" ".join(l)`. -/
def joinSpace : List String → String
  | [] => ""
  | [s] => s
  | s :: rest => s ++ " " ++ joinSpace rest

/-- A primitive python value appearing as a canonical tag value
(strings from vendor fields, booleans such as `is_remote`). -/
inductive PyLit where
  | s (v : String)
  | b (v : Bool)
deriving DecidableEq, Repr

namespace SmartRecruiters

/-- `SMARTRECRUITERS_JOBS_ENDPOINT_LIMIT` from
`connectors/smartrecruiters/warehouse.py`. -/
def SMARTRECRUITERS_JOBS_ENDPOINT_LIMIT : Nat := 100

namespace PullJobs

/-- The query parameters of one listing request issued by
`PullJobsAction.pull.get_page` in `connectors/smartrecruiters/actions.py`:
the page size (`limit`, taken verbatim from the `limit` field of the
action) and the cursor (`pageId`, `None` for the first page). The other
query parameters (q, updatedAfter, postingStatus, status) are constant
across the whole pull and do not affect the control flow, so they are kept
out of the model. -/
structure ListRequest where
  limit : Nat
  pageId : Option String
deriving DecidableEq, Repr

/-- The response body of the `GET /jobs` listing endpoint as consumed by
`get_page`: `totalFound` (only logged), `nextPageId`, and `content`, the
page of data-reduced jobs. The code only ever reads the `id` field of each
light job, so a light job is modeled by its id string. -/
structure ListResponse where
  status : Nat
  totalFound : Nat
  nextPageId : Option String
  content : List String
deriving DecidableEq, Repr

/-- The response of the per-item `GET /jobs/{jobId}` detail fetch issued by
`get_full_job`; `body` is the full job record (abstract type `J`). -/
structure DetailResponse (J : Type) where
  status : Nat
  body : J
deriving DecidableEq, Repr

/-- `PullError` as raised by `PullJobsAction.pull` in
`connectors/smartrecruiters/actions.py`: the listing branch passes the
response and `page_id=next_page_id`, the detail branch passes the response
and `job_id=job_id`, so the raised error carries the current cursor (or
item id) and the HTTP status. `outOfFuel` is a model artifact marking that
the loop was cut before reaching a terminal page (the python loop would
still be running). -/
inductive PullErr where
  | pageFail (pageId : Option String) (status : Nat)
  | jobFail (jobId : String) (status : Nat)
  | outOfFuel
deriving DecidableEq, Repr

/-- `get_full_job` mapped over the light jobs of one page (the python code
applies `map(get_full_job, ...)` lazily, so each detail is fetched in
listing order and the first non-ok detail response raises `PullError`
before any later job is fetched). -/
def get_full_jobs {J : Type} (detail : String → DetailResponse J) :
    List String → Except PullErr (List J)
  | [] => .ok []
  | id :: rest =>
    if responseOk (detail id).status then
      match get_full_jobs detail rest with
      | .ok jobs => .ok ((detail id).body :: jobs)
      | .error e => .error e
    else .error (.jobFail id (detail id).status)

/-- `PullJobsAction.pull` from `connectors/smartrecruiters/actions.py`
(lines 39-131): `get_page` starts at `pageId=None`, issues one listing
request per iteration, raises `PullError` when the response is not ok,
yields the page content and advances the cursor to the returned
`nextPageId`, stopping after the first page whose `content` is empty.
Because the page generator is consumed through the lazy
`map(get_full_job, chain.from_iterable(...))`, all detail fetches of a
page happen before the next listing request. Returns the trace of listing
requests actually issued, and either the flattened list of detailed jobs
or the first error raised. `fuel` bounds the number of loop iterations;
running out of fuel is reported as the model-only error `.outOfFuel`. -/
def pull {J : Type} (listing : ListRequest → ListResponse)
    (detail : String → DetailResponse J) (limit : Nat) :
    Nat → Option String → List ListRequest × Except PullErr (List J)
  | 0, _ => ([], .error .outOfFuel)
  | fuel + 1, pageId =>
    let req : ListRequest := ⟨limit, pageId⟩
    let r := listing req
    if responseOk r.status then
      if r.content = [] then ([req], .ok [])
      else
        match get_full_jobs detail r.content with
        | .error e => ([req], .error e)
        | .ok jobs =>
          let rest := pull listing detail limit fuel r.nextPageId
          (req :: rest.1, rest.2.map (fun more => jobs ++ more))
    else ([req], .error (.pageFail pageId r.status))

/-- The vendor serves, starting from cursor `pageId`, the chain of
non-empty pages `pages` (each with its `nextPageId` pointing at the next),
followed by one terminal page with empty content; `trace` is the list of
listing requests that walks exactly this chain. This is the hypothesis
shape of the pagination claim: it describes the environment, not the
code. -/
inductive Serves (listing : ListRequest → ListResponse) (limit : Nat) :
    Option String → List (List String) → List ListRequest → Prop
  | last (pageId : Option String)
      (hok : responseOk (listing ⟨limit, pageId⟩).status = true)
      (hempty : (listing ⟨limit, pageId⟩).content = []) :
      Serves listing limit pageId [] [⟨limit, pageId⟩]
  | page (pageId : Option String) (pages : List (List String))
      (trace : List ListRequest)
      (hok : responseOk (listing ⟨limit, pageId⟩).status = true)
      (hne : (listing ⟨limit, pageId⟩).content ≠ [])
      (hrest : Serves listing limit (listing ⟨limit, pageId⟩).nextPageId
        pages trace) :
      Serves listing limit pageId
        ((listing ⟨limit, pageId⟩).content :: pages) (⟨limit, pageId⟩ :: trace)

end PullJobs

namespace Warehouse

/-- `write` from `connectors/smartrecruiters/warehouse.py` (lines 163-188).
For each profile a POST to `jobs/{job_id}/candidates` is issued; `send`
models the transport, returning the HTTP status code of posting a given
profile. The python function returns the list `failed_profiles`; the first
component here is the trace of submitted profiles (every iteration issues
its POST unconditionally), the second is the returned `failed_profiles`
list, appended to exactly when `status_code // 100 != 2`. -/
def write {α : Type} (send : α → Nat) : List α → List α × List α
  | [] => ([], [])
  | p :: rest =>
    let r := write send rest
    (p :: r.1, if (send p) / 100 = 2 then r.2 else p :: r.2)

end Warehouse

/-- Errors raised by the SmartRecruiters `PushProfileAction.push`:
`stopIteration` models `next(data)` on an exhausted iterator, `pushFail`
models `PushError(response)` with the status of the failed POST. -/
inductive Err where
  | stopIteration
  | pushFail (status : Nat)
deriving DecidableEq, Repr

namespace PullJobs

/-- The `location` sub-document of a raw SmartRecruiters job as read by
`PullJobsAction.format` (lines 160-178 of
`connectors/smartrecruiters/actions.py`). Numeric coordinates are modeled
as exact rationals; `none` is a missing/null field. -/
structure JobLocation where
  latitude : Option Rat
  longitude : Option Rat
  country : Option String
  region : Option String
  city : Option String
  address : Option String
deriving DecidableEq, Repr

/-- The default of `data.get("location", {})`: an empty dictionary, whose
every `.get` returns `None`. -/
def emptyLocation : JobLocation := ⟨none, none, none, none, none, none⟩

/-- Python `float(x)` on a value that is already numeric: the numeric value
itself (coordinates are modeled as exact rationals, so the conversion is
the identity; what matters for the claims is presence versus absence). -/
def pyFloat (v : Rat) : Rat := v

/-- The canonical job location assembled by `PullJobsAction.format`:
`dict(lat=lat, lng=lng, text=text)`. -/
structure HrflowJobLocation where
  lat : Option Rat
  lng : Option Rat
  text : String
deriving DecidableEq, Repr

/-- The location-assembly fragment of `PullJobsAction.format`
(`connectors/smartrecruiters/actions.py` lines 160-178): `lat`/`lng` are
taken from `data.get("location", {})`, converted with `float` only when
not `None`; the text is the space-join of whichever of country, region,
city, address are present, in that order. -/
def formatLocation (location : Option JobLocation) : HrflowJobLocation :=
  let loc := location.getD emptyLocation
  let lat := loc.latitude.map pyFloat
  let lng := loc.longitude.map pyFloat
  let text :=
    joinSpace ([loc.country, loc.region, loc.city, loc.address].filterMap id)
  ⟨lat, lng, text⟩

end PullJobs

namespace PushProfile

/-- The `fields` sub-document of the hrflow profile location consumed by
`PushProfileAction.format`. -/
structure LocationFields where
  city : Option String
  country : Option String
  state : Option String
deriving DecidableEq, Repr

/-- The hrflow profile `info["location"]` consumed by
`PushProfileAction.format`: the code tests
`info["location"].get("fields") not in [[], None]`, so `fields = none`
models both a missing `fields` and the empty-list value. -/
structure ProfileLocation where
  fields : Option LocationFields
  lat : Option Rat
  lng : Option Rat
deriving DecidableEq, Repr

/-- `value_or_undefined = lambda s: s or "Undefined"`: python falsy values
(`None`, the empty string, and the `{}` default of `.get(key, {})`, all
modeled by `none` or `""`) become "Undefined". -/
def value_or_undefined : Option String → String
  | some v => if v = "" then "Undefined" else v
  | none => "Undefined"

/-- A value of the candidate location dictionary: a string or a number. -/
inductive PyV where
  | s (v : String)
  | num (v : Rat)
deriving DecidableEq, Repr

/-- The location fragment of `PushProfileAction.format`
(`connectors/smartrecruiters/actions.py` lines 335-359), as the list of
key/value pairs of the dictionary the code builds. When `fields` is
present, `lat`/`lng` fall back to 0 when `None`; when `fields` is absent
or empty the whole location is the literal all-Undefined dictionary with
`lat=0, lng=0` (note the vendor key "City" with a capital C in that
branch, as in the source). -/
def candidateLocation (loc : ProfileLocation) : List (String × PyV) :=
  match loc.fields with
  | some f =>
    [("city", .s (value_or_undefined f.city)),
     ("country", .s (value_or_undefined f.country)),
     ("region", .s (value_or_undefined f.state)),
     ("lat", .num (match loc.lat with | some v => v | none => 0)),
     ("lng", .num (match loc.lng with | some v => v | none => 0))]
  | none =>
    [("country", .s "Undefined"), ("region", .s "Undefined"),
     ("City", .s "Undefined"), ("lat", .num 0), ("lng", .num 0)]

/-- `PushProfileAction.push` from `connectors/smartrecruiters/actions.py`
(lines 370-394): `profile = next(data)` takes the first element of the
iterator (StopIteration on an empty one, before any request), then a
single POST of that profile to `jobs/{job_id}/candidates` is sent;
`PushError` is raised when the response is not ok. `respond` models the
transport (status of posting a given profile); the trace records the
(url, posted profile) pairs. -/
def push {α : Type} (job_id : String) (respond : α → Nat) :
    List α → List (String × α) × Except Err Unit
  | [] => ([], .error .stopIteration)
  | profile :: _ =>
    let url := "https://api.smartrecruiters.com/jobs/" ++ job_id ++ "/candidates"
    if responseOk (respond profile) then ([(url, profile)], .ok ())
    else ([(url, profile)], .error (.pushFail (respond profile)))

end PushProfile

end SmartRecruiters

namespace Taleez

namespace PushProfile

/-- Errors raised by the Taleez `PushProfileAction.push`: `stopIteration`
models `next(data)` on an exhausted iterator; `pushFail` the `PushError`
of the candidate POST; `addFail` the `PushError(response, job_id=...)` of
the add-to-job POST. -/
inductive Err where
  | stopIteration
  | pushFail (status : Nat)
  | addFail (status : Nat) (job_id : Nat)
deriving DecidableEq, Repr

/-- A request issued by the Taleez `PushProfileAction.push`: either the
POST of a candidate profile to `/0/candidates`, or the POST of
`dict(ids=[candidate_id])` to `/0/jobs/{job_id}/candidates`. -/
inductive Req (α : Type) where
  | postCandidate (profile : α)
  | addToJob (job_id : Nat) (ids : List Nat)
deriving DecidableEq, Repr

/-- `PushProfileAction.push` from `connectors/taleez/actions.py`
(lines 188-229): `profile = next(data)` takes the first element
(StopIteration on empty input, before any request); the profile is POSTed
to `/0/candidates` (PushError when not ok); then, only when `job_id` is
set, the candidate id parsed from the response body is POSTed to
`/0/jobs/{job_id}/candidates` (PushError carrying the job id when not
ok). `respond` models the transport for the candidate POST, returning the
status and the `id` field of the response body; `addStatus` the status of
the add-to-job POST. -/
def push {α : Type} (job_id : Option Nat) (respond : α → Nat × Nat)
    (addStatus : Nat) : List α → List (Req α) × Except Err Unit
  | [] => ([], .error .stopIteration)
  | profile :: _ =>
    let r := respond profile
    if responseOk r.1 then
      match job_id with
      | none => ([.postCandidate profile], .ok ())
      | some jid =>
        if responseOk addStatus then
          ([.postCandidate profile, .addToJob jid [r.2]], .ok ())
        else
          ([.postCandidate profile, .addToJob jid [r.2]],
            .error (.addFail addStatus jid))
    else ([.postCandidate profile], .error (.pushFail r.1))

end PushProfile

end Taleez

namespace BreezyHR

/-- Errors raised by the BreezyHR actions: `pullFail` / `pushFail` model
`PullError(response, ...)` / `PushError(response, ...)` with the HTTP
status (the human-readable messages of the source are omitted);
`stopIteration` models `next(data)` on an exhausted iterator; `typeError`
models the python TypeError of indexing a list with a string key. -/
inductive Err where
  | pullFail (status : Nat)
  | pushFail (status : Nat)
  | stopIteration
  | typeError
deriving DecidableEq, Repr

/-- One entry of the `GET /v3/companies` response body. -/
structure Company where
  name : String
  _id : String
deriving DecidableEq, Repr

/-- The company-lookup loop shared by `PullJobsAction.pull.get_company_id`
and `PushProfileAction.push`: the first company whose `name` equals the
configured `company_name` yields its `_id`; when no entry matches, the
loop falls through and the python function returns `None` (there is no
raise). Comparing a string against a `company_name` of `None` never
matches. -/
def findCompanyId (companies : List Company) (company_name : Option String) :
    Option String :=
  (companies.find? (fun c => company_name == some c.name)).map (fun c => c._id)

/-- `Modelled from the spec:` `remove_html_tags` of
`utils/clean_text.py` is not part of the sources; the spec says
HTML-bearing long-text fields are stripped of markup before becoming a
section description, so it is modeled as the function dropping every
character span between `<` and `>`. No claim depends on the exact
stripping. The boolean state is: currently inside a tag. -/
def stripHtmlAux : Bool → List Char → List Char
  | _, [] => []
  | false, c :: rest =>
    if c = '<' then stripHtmlAux true rest else c :: stripHtmlAux false rest
  | true, c :: rest =>
    if c = '>' then stripHtmlAux false rest else stripHtmlAux true rest

/-- `remove_html_tags` (see `stripHtmlAux`). -/
def remove_html_tags (s : String) : String := String.mk (stripHtmlAux false s.data)

namespace PullJobs

/-- The `country` sub-document of a BreezyHR position location. -/
structure BreezyCountry where
  name : Option String
deriving DecidableEq, Repr

/-- The `location` sub-document of a BreezyHR position as read by
`PullJobsAction.format`. -/
structure BreezyLocation where
  country : BreezyCountry
  city : Option String
  name : Option String
  is_remote : Option Bool
deriving DecidableEq, Repr

/-- A raw BreezyHR field consumed by `create_tag`: absent/null, a plain
string, or a dictionary carrying a `name` entry (any other python type
would simply produce no tag, like `vnone`). -/
inductive FieldVal where
  | vnone
  | vstr (s : String)
  | vobj (name : Option String)
deriving DecidableEq, Repr

/-- A raw BreezyHR position as consumed by `PullJobsAction.format` in
`connectors/breezyhr/actions.py` (lines 76-142). -/
structure BreezyJob where
  name : Option String
  friendly_id : Option String
  location : BreezyLocation
  description : String
  type : FieldVal
  experience : FieldVal
  education : FieldVal
  department : FieldVal
  requisition_id : FieldVal
  category : FieldVal
  candidate_type : FieldVal
  creation_date : Option String
  updated_date : Option String
deriving DecidableEq, Repr

/-- A canonical tag: `dict(name=..., value=...)`; the value may be a
string, a boolean (the remote flag), or `None`. -/
structure Tag where
  name : String
  value : Option PyLit
deriving DecidableEq, Repr

/-- A canonical job section. -/
structure Section where
  name : String
  title : String
  description : String
deriving DecidableEq, Repr

/-- The `geojson` fragment of the canonical location built by the BreezyHR
format. -/
structure Geojson where
  country : Option String
  city : Option String
deriving DecidableEq, Repr

/-- The canonical location built by the BreezyHR format:
`dict(text=address, geojson=geojson, lat=None, lng=None)`. -/
structure HrflowLocation where
  text : Option String
  geojson : Geojson
  lat : Option Rat
  lng : Option Rat
deriving DecidableEq, Repr

/-- The canonical hrflow job dictionary built by
`BreezyHR PullJobsAction.format`. -/
structure HrflowJob where
  name : Option String
  reference : Option String
  summary : Option String
  location : HrflowLocation
  sections : List Section
  tags : List Tag
  created_at : Option String
  updated_at : Option String
deriving DecidableEq, Repr

/-- `create_tag` from `BreezyHR PullJobsAction.format`
(`connectors/breezyhr/actions.py` lines 116-126): a dict-valued field
appends a tag with the value of its `name` entry (which may itself be
null); a string-valued field appends the string; anything else (null
included) appends nothing. -/
def create_tag (field_name : String) (v : FieldVal) : List Tag :=
  match v with
  | .vnone => []
  | .vstr s => [⟨"breezy_hr_" ++ field_name, some (.s s)⟩]
  | .vobj nm => [⟨"breezy_hr_" ++ field_name, nm.map PyLit.s⟩]

/-- `PullJobsAction.format` from `connectors/breezyhr/actions.py`
(lines 76-142): direct fields map with `.get` (absence becomes null,
nothing raises); the single description section is always built from the
HTML-stripped description; the seven `create_tag` fields append a tag only
according to `create_tag`; and the `breezy_hr_remote` tag is appended
UNCONDITIONALLY with `location.get("is_remote")` as its value — even when
that value is null. -/
def format (data : BreezyJob) : HrflowJob :=
  let cleaned := (remove_html_tags data.description).replace "&nbsp;" " "
  { name := data.name
    reference := data.friendly_id
    summary := none
    location :=
      { text := data.location.name
        geojson := ⟨data.location.country.name, data.location.city⟩
        lat := none
        lng := none }
    sections := [⟨"breezy_hr_description", "Breezy_hr_description", cleaned⟩]
    tags :=
      create_tag "type" data.type ++
      create_tag "experience" data.experience ++
      create_tag "education" data.education ++
      create_tag "department" data.department ++
      create_tag "requisition_id" data.requisition_id ++
      create_tag "category" data.category ++
      create_tag "candidate_type" data.candidate_type ++
      [⟨"breezy_hr_remote", data.location.is_remote.map PyLit.b⟩]
    created_at := data.creation_date
    updated_at := data.updated_date }

/-- `PullJobsAction.pull.get_company_id` from
`connectors/breezyhr/actions.py` (lines 35-54): a configured `company_id`
is returned with no request; otherwise `GET /v3/companies` is issued,
`PullError` is raised when it is not ok, and the body is scanned with
`findCompanyId` — a scan without a match returns `None`. The trace lists
the urls requested. -/
def get_company_id (company_id company_name : Option String)
    (companiesStatus : Nat) (companies : List Company) :
    List String × Except Err (Option String) :=
  match company_id with
  | some cid => ([], .ok (some cid))
  | none =>
    if responseOk companiesStatus then
      (["https://api.breezy.hr/v3/companies"],
        .ok (findCompanyId companies company_name))
    else
      (["https://api.breezy.hr/v3/companies"],
        .error (.pullFail companiesStatus))

/-- `PullJobsAction.pull` from `connectors/breezyhr/actions.py`
(lines 29-74): the positions of company `get_company_id()` are requested
from `company/{id}/positions?` — the id resolved by `get_company_id` is
interpolated into the url by an f-string, so an unresolved id (python
`None`) becomes the literal "None". `positions` models the transport for
that request, giving status and body for a url. -/
def pull (company_id company_name : Option String) (companiesStatus : Nat)
    (companies : List Company) (positions : String → Nat × List BreezyJob) :
    List String × Except Err (List BreezyJob) :=
  match get_company_id company_id company_name companiesStatus companies with
  | (tr, .error e) => (tr, .error e)
  | (tr, .ok cid) =>
    let url := "https://api.breezy.hr/v3/company/" ++ pyStr cid ++ "/positions?"
    let r := positions url
    if responseOk r.1 then (tr ++ [url], .ok r.2)
    else (tr ++ [url], .error (.pullFail r.1))

end PullJobs

namespace PushProfile

/-- One entry of the hrflow profile `info["urls"]` list: the code reads
its `type` and `url` entries with `.get`; `url = some s` models a string
link (the `isinstance(link, str)` test), `none` anything else. -/
structure UrlEntry where
  type : Option String
  url : Option String
deriving DecidableEq, Repr

/-- One entry of the hrflow profile `info["attachments"]` list. -/
structure Attachment where
  file_name : Option String
  public_url : Option String
deriving DecidableEq, Repr

/-- A normalized date as used through `from_str_to_datetime`.
`Modelled from the spec:` `from_str_to_datetime` of
`utils/datetime_converter.py` is not part of the sources; the spec says
vendor timestamps are normalized to one canonical datetime, and the code
only reads `.year` and `.month` of the parsed value, so a date is modeled
as its already-parsed year and month. -/
structure PyDate where
  year : Nat
  month : Nat
deriving DecidableEq, Repr

/-- One hrflow experience entry as read by the BreezyHR
`PushProfileAction.format.format_experiences`. -/
structure Experience where
  company : Option String
  title : Option String
  description : Option String
  date_start : Option PyDate
  date_end : Option PyDate
deriving DecidableEq, Repr

/-- One hrflow education entry as read by the BreezyHR
`PushProfileAction.format.format_educations`. -/
structure Education where
  school : Option String
  title : Option String
  date_start : Option PyDate
  date_end : Option PyDate
deriving DecidableEq, Repr

/-- One hrflow skill entry (`skill["name"]`). -/
structure Skill where
  name : String
deriving DecidableEq, Repr

/-- The `info` sub-document of an hrflow profile as read by the BreezyHR
`PushProfileAction.format`; `urls`/`attachments` are `none` when the field
is not a python list (the `isinstance(..., list)` tests). -/
structure Info where
  full_name : Option String
  email : Option String
  phone : Option String
  summary : Option String
  location_text : Option String
  urls : Option (List UrlEntry)
  attachments : Option (List Attachment)
deriving DecidableEq, Repr

/-- An hrflow profile as consumed by the BreezyHR
`PushProfileAction.format`. -/
structure HrflowProfile where
  info : Info
  experiences : List Experience
  educations : List Education
  skills : Option (List Skill)
deriving DecidableEq, Repr

/-- One `work_history` entry produced by `format_experiences`
(`connectors/breezyhr/actions.py` lines 188-210): a company that is `""`
or `None` becomes "Undefined"; the year/month entries are set only when
the corresponding date is present. -/
structure WorkItem where
  company_name : String
  title : Option String
  summary : Option String
  start_year : Option Nat
  start_month : Option Nat
  end_year : Option Nat
  end_month : Option Nat
deriving DecidableEq, Repr

/-- One `education` entry produced by `format_educations`
(`connectors/breezyhr/actions.py` lines 214-230): only an EMPTY school
string is replaced by "Undefined" (a `None` school stays `None`). -/
structure EduItem where
  school_name : Option String
  field_of_study : Option String
  start_year : Option Nat
  end_year : Option Nat
deriving DecidableEq, Repr

/-- The BreezyHR candidate dictionary produced by
`PushProfileAction.format` when it returns at all; `social_profiles` is
the python list `[]` set at line 232 — it is still the empty list in every
successfully returned profile, because the only code that would populate
it indexes it with a string key and therefore raises. -/
structure BreezyProfile where
  name : Option String
  address : Option String
  email_address : Option String
  phone_number : Option String
  summary : Option String
  origin : Option String
  work_history : List WorkItem
  education : List EduItem
  social_profiles : List (String × String)
  cover_letter : Option String
  tags : List String
deriving DecidableEq, Repr

/-- `format_experiences` body for one experience. -/
def formatExperience (e : Experience) : WorkItem :=
  { company_name :=
      match e.company with
      | some s => if s = "" then "Undefined" else s
      | none => "Undefined"
    title := e.title
    summary := e.description
    start_year := e.date_start.map (fun d => d.year)
    start_month := e.date_start.map (fun d => d.month)
    end_year := e.date_end.map (fun d => d.year)
    end_month := e.date_end.map (fun d => d.month) }

/-- `format_educations` body for one education. -/
def formatEducation (e : Education) : EduItem :=
  { school_name :=
      match e.school with
      | some s => some (if s = "" then "Undefined" else s)
      | none => none
    field_of_study := e.title
    start_year := e.date_start.map (fun d => d.year)
    end_year := e.date_end.map (fun d => d.year) }

/-- The urls loop of `format_urls` (`connectors/breezyhr/actions.py`
lines 239-244): for the first entry whose `url` is a string, the code
executes `profile["social_profiles"][type] = link`; `social_profiles` is
a python LIST (initialized `[]` at line 232), and indexing a list with a
string key raises TypeError. Entries without a string link are skipped. -/
def urlsStep : List UrlEntry → Except Err Unit
  | [] => .ok ()
  | u :: rest =>
    match u.url with
    | some _ => .error .typeError
    | none => urlsStep rest

/-- The attachments loop of `format_urls` (lines 245-251): same list
indexed by the string `file_name`, so the first attachment with a string
`public_url` raises TypeError. -/
def attachmentsStep : List Attachment → Except Err Unit
  | [] => .ok ()
  | a :: rest =>
    match a.public_url with
    | some _ => .error .typeError
    | none => attachmentsStep rest

/-- `format_urls` from `PushProfileAction.format`
(`connectors/breezyhr/actions.py` lines 234-253): the urls loop runs
first, then the attachments loop; either raises TypeError at its first
entry carrying a string link. A missing (non-list) `urls` or
`attachments` skips the corresponding loop. -/
def format_urls (urls : Option (List UrlEntry))
    (attachments : Option (List Attachment)) : Except Err Unit :=
  match (match urls with | some us => urlsStep us | none => .ok ()) with
  | .error e => .error e
  | .ok _ =>
    match attachments with
    | some l => attachmentsStep l
    | none => .ok ()

/-- `PushProfileAction.format` from `connectors/breezyhr/actions.py`
(lines 164-266): the direct info fields, origin and cover_letter are
copied; experiences and educations are mapped; `format_urls()` is called
on the way (its TypeError propagates, aborting the format); skills become
string tags. -/
def format (origin cover_letter : Option String) (data : HrflowProfile) :
    Except Err BreezyProfile :=
  match format_urls data.info.urls data.info.attachments with
  | .error e => .error e
  | .ok _ =>
    .ok
      { name := data.info.full_name
        address := data.info.location_text
        email_address := data.info.email
        phone_number := data.info.phone
        summary := data.info.summary
        origin := origin
        work_history := data.experiences.map formatExperience
        education := data.educations.map formatEducation
        social_profiles := []
        cover_letter := cover_letter
        tags :=
          match data.skills with
          | some sk => sk.map (fun s => s.name)
          | none => [] }

/-- One entry of the candidate-search response body (`_id` is the only
field the code reads). -/
structure Candidate where
  _id : String
deriving DecidableEq, Repr

/-- A request issued by the BreezyHR `PushProfileAction.push.send_request`
helper: method, url and the optional json body (a candidate profile). -/
structure Req where
  method : String
  url : String
  body : Option BreezyProfile
deriving DecidableEq, Repr

/-- The company-resolution step at the start of `PushProfileAction.push`
(`connectors/breezyhr/actions.py` lines 310-320): with no configured
`company_id`, `GET /v3/companies` is issued (PushError when not ok) and
the matching loop may leave the id unresolved (`None`) when no company
name matches. -/
def resolveCompany (company_id company_name : Option String)
    (companiesResp : Nat × List Company) :
    List Req × Except Err (Option String) :=
  match company_id with
  | some cid => ([], .ok (some cid))
  | none =>
    if responseOk companiesResp.1 then
      ([⟨"GET", "https://api.breezy.hr/v3/companies", none⟩],
        .ok (findCompanyId companiesResp.2 company_name))
    else
      ([⟨"GET", "https://api.breezy.hr/v3/companies", none⟩],
        .error (.pushFail companiesResp.1))

/-- `PushProfileAction.push` from `connectors/breezyhr/actions.py`
(lines 268-356): `profile = next(data)` takes the first profile
(StopIteration on an empty iterator, before any request); the company id
is resolved; the candidate is looked up by email with
`GET .../candidates/search?email_address=...` (PushError when not ok);
when the returned list is non-empty its FIRST entry is the match and a
PUT against `.../position/{position_id}/candidate/{matched id}` updates
it, otherwise a POST against `.../position/{position_id}/candidates`
creates it (PushError when the write is not ok). `companiesResp`,
`searchResp` and `writeStatus` model the transport; unresolved ids are
interpolated as the literal "None". -/
def push (company_id company_name : Option String) (position_id : String)
    (companiesResp : Nat × List Company) (searchResp : Nat × List Candidate)
    (writeStatus : Nat) :
    List BreezyProfile → List Req × Except Err Unit
  | [] => ([], .error .stopIteration)
  | profile :: _ =>
    match resolveCompany company_id company_name companiesResp with
    | (tr, .error e) => (tr, .error e)
    | (tr, .ok cid) =>
      let searchReq : Req := ⟨"GET",
        "https://api.breezy.hr/v3/company/" ++ pyStr cid ++
          "/candidates/search?email_address=" ++ pyStr profile.email_address,
        none⟩
      if responseOk searchResp.1 then
        match searchResp.2.head? with
        | some candidate =>
          let updateReq : Req := ⟨"PUT",
            "https://api.breezy.hr/v3/company/" ++ pyStr cid ++ "/position/" ++
              position_id ++ "/candidate/" ++ candidate._id,
            some profile⟩
          if responseOk writeStatus then (tr ++ [searchReq, updateReq], .ok ())
          else (tr ++ [searchReq, updateReq], .error (.pushFail writeStatus))
        | none =>
          let createReq : Req := ⟨"POST",
            "https://api.breezy.hr/v3/company/" ++ pyStr cid ++ "/position/" ++
              position_id ++ "/candidates",
            some profile⟩
          if responseOk writeStatus then (tr ++ [searchReq, createReq], .ok ())
          else (tr ++ [searchReq, createReq], .error (.pushFail writeStatus))
      else (tr ++ [searchReq], .error (.pushFail searchResp.1))

end PushProfile

end BreezyHR

/-- Claim C1 (amended): the SmartRecruiters warehouse bulk write submits
every profile of the batch in order (a transport failure on one item never
prevents later items from being submitted), and returns the sublist of
profiles whose create call returned a non-2xx status, in input order; it
does not return a length-N Created/Updated outcome sequence. -/
theorem c1_write_isolates_failures {α : Type} (send : α → Nat)
    (profiles : List α) :
    SmartRecruiters.Warehouse.write send profiles =
      (profiles, profiles.filter (fun p => (send p) / 100 != 2)) := by
  induction profiles with
  | nil => rfl
  | cons p rest ih =>
    simp only [SmartRecruiters.Warehouse.write, ih, List.filter_cons]
    by_cases h : (send p) / 100 = 2
    · simp [h]
    · simp [h]

/-- Claim C1, counterexample to the claim as stated: for a batch of N = 2
profiles in which the create call for item 1 suffers a transport failure
(status 500) and item 2 succeeds (status 201), the value returned by the
push operation has length 1, not N = 2 — the code returns only the failed
profiles, never a length-N outcome sequence with per-item Created/Updated
outcomes. -/
theorem c1_counterexample :
    ¬ ((SmartRecruiters.Warehouse.write
        (fun p => if p = 0 then 500 else 201) [0, 1]).2.length = 2) := by
  decide

/-- Helper: when every detail fetch of `ids` responds ok, `get_full_jobs`
returns the detailed bodies in listing order. -/
theorem get_full_jobs_ok {J : Type}
    (detail : String → SmartRecruiters.PullJobs.DetailResponse J)
    (ids : List String)
    (h : ∀ id ∈ ids, responseOk (detail id).status = true) :
    SmartRecruiters.PullJobs.get_full_jobs detail ids =
      .ok (ids.map (fun id => (detail id).body)) := by
  induction ids with
  | nil => rfl
  | cons id rest ih =>
    have h1 : responseOk (detail id).status = true := h id (by simp)
    have h2 := ih (fun i hi => h i (by simp [hi]))
    simp [SmartRecruiters.PullJobs.get_full_jobs, h1, h2]

/-- Helper: the first detail fetch with a non-ok response raises, carrying
that item id and status. -/
theorem get_full_jobs_first_bad {J : Type}
    (detail : String → SmartRecruiters.PullJobs.DetailResponse J)
    (pre : List String) (bad : String) (rest : List String)
    (hpre : ∀ id ∈ pre, responseOk (detail id).status = true)
    (hbad : responseOk (detail bad).status = false) :
    SmartRecruiters.PullJobs.get_full_jobs detail (pre ++ bad :: rest) =
      .error (.jobFail bad (detail bad).status) := by
  induction pre with
  | nil => simp [SmartRecruiters.PullJobs.get_full_jobs, hbad]
  | cons id pre ih =>
    have h1 : responseOk (detail id).status = true := hpre id (by simp)
    have h2 := ih (fun i hi => hpre i (by simp [hi]))
    simp [SmartRecruiters.PullJobs.get_full_jobs, h1, h2]

/-- Helper: one-step unfolding of the paginator loop body, keeping the
recursive call folded. -/
theorem pull_succ {J : Type}
    (listing : SmartRecruiters.PullJobs.ListRequest →
      SmartRecruiters.PullJobs.ListResponse)
    (detail : String → SmartRecruiters.PullJobs.DetailResponse J)
    (limit fuel : Nat) (pageId : Option String) :
    SmartRecruiters.PullJobs.pull listing detail limit (fuel + 1) pageId =
      (if responseOk (listing ⟨limit, pageId⟩).status then
        if (listing ⟨limit, pageId⟩).content = [] then
          ([⟨limit, pageId⟩], .ok [])
        else
          match SmartRecruiters.PullJobs.get_full_jobs detail
              (listing ⟨limit, pageId⟩).content with
          | .error e => ([⟨limit, pageId⟩], .error e)
          | .ok jobs =>
            (⟨limit, pageId⟩ ::
              (SmartRecruiters.PullJobs.pull listing detail limit fuel
                (listing ⟨limit, pageId⟩).nextPageId).1,
              ((SmartRecruiters.PullJobs.pull listing detail limit fuel
                (listing ⟨limit, pageId⟩).nextPageId).2).map
                  (fun more => jobs ++ more))
      else
        ([⟨limit, pageId⟩],
          .error (.pageFail pageId (listing ⟨limit, pageId⟩).status))) := rfl

/-- Helper: when the vendor serves a terminating chain of pages and every
detail fetch responds ok, `pull` issues exactly the chain requests and
yields the detailed jobs of every page in order. -/
theorem pull_serves {J : Type}
    (listing : SmartRecruiters.PullJobs.ListRequest →
      SmartRecruiters.PullJobs.ListResponse)
    (detail : String → SmartRecruiters.PullJobs.DetailResponse J)
    (limit : Nat) (pageId : Option String) (pages : List (List String))
    (trace : List SmartRecruiters.PullJobs.ListRequest)
    (hchain : SmartRecruiters.PullJobs.Serves listing limit pageId pages trace) :
    (∀ id ∈ pages.flatten, responseOk (detail id).status = true) →
    SmartRecruiters.PullJobs.pull listing detail limit (pages.length + 1) pageId =
      (trace, .ok ((pages.flatten).map (fun id => (detail id).body))) := by
  induction hchain with
  | last p hok hempty =>
    intro _
    simp [pull_succ, hok, hempty]
  | page p ps tr hok hne hrest ih =>
    intro hd
    have hids : ∀ id ∈ (listing ⟨limit, p⟩).content,
        responseOk (detail id).status = true := by
      intro i hi
      exact hd i (by simp [hi])
    have hrec := ih (fun i hi => hd i (by simp [hi]))
    rw [List.length_cons, pull_succ, get_full_jobs_ok detail _ hids]
    simp [hok, hne, hrec]
    rfl

/-- Claim C2: for every page size at or below the vendor maximum (100),
whenever the vendor serves a chain of pages ending in a page with zero
items and every detail fetch succeeds, the paginated read returns exactly
the items of every page, each exactly once, fully detailed, in the vendor
listing order — and the listing requests issued are exactly the requests
of the chain (in particular no request with a cursor beyond the terminal
page is made); the read terminates normally on the empty page. -/
theorem c2_paginator_yields_every_item_once {J : Type}
    (listing : SmartRecruiters.PullJobs.ListRequest →
      SmartRecruiters.PullJobs.ListResponse)
    (detail : String → SmartRecruiters.PullJobs.DetailResponse J)
    (limit : Nat) (pages : List (List String))
    (trace : List SmartRecruiters.PullJobs.ListRequest)
    (_hlimit : limit ≤ SmartRecruiters.SMARTRECRUITERS_JOBS_ENDPOINT_LIMIT)
    (hchain : SmartRecruiters.PullJobs.Serves listing limit none pages trace)
    (hdetail : ∀ id ∈ pages.flatten, responseOk (detail id).status = true) :
    SmartRecruiters.PullJobs.pull listing detail limit (pages.length + 1) none =
      (trace, .ok ((pages.flatten).map (fun id => (detail id).body))) :=
  pull_serves listing detail limit none pages trace hchain hdetail

/-- Claim C2, witness: the scenario of the claim. Page 1 (cursor `None`)
returns the two light jobs j1, j2 with nextPageId "p2"; page 2 (cursor
"p2") returns zero items. The read issues exactly the two listing
requests — none with a cursor beyond "p2" — and yields exactly the two
detailed records, in order. -/
theorem c2_witness :
    10 ≤ SmartRecruiters.SMARTRECRUITERS_JOBS_ENDPOINT_LIMIT ∧
    SmartRecruiters.PullJobs.pull
      (fun req => if req.pageId = none then
          ⟨200, 2, some "p2", ["j1", "j2"]⟩ else ⟨200, 2, none, []⟩)
      (fun id => ⟨200, if id = "j1" then (1 : Nat) else 2⟩) 10 2 none =
      ([⟨10, none⟩, ⟨10, some "p2"⟩], .ok [1, 2]) := by
  constructor
  · decide
  · have hchain : SmartRecruiters.PullJobs.Serves
        (fun req => if req.pageId = none then
            ⟨200, 2, some "p2", ["j1", "j2"]⟩ else ⟨200, 2, none, []⟩)
        10 none [["j1", "j2"]] [⟨10, none⟩, ⟨10, some "p2"⟩] := by
      exact SmartRecruiters.PullJobs.Serves.page none [] _
        (by decide) (by decide)
        (SmartRecruiters.PullJobs.Serves.last (some "p2") (by decide) (by decide))
    exact c2_paginator_yields_every_item_once _ _ 10 [["j1", "j2"]] _
      (by decide) hchain (by decide)

/-- Claim C5 (amended): any response that is not ok (HTTP status at least
400) on a listing-page request or on a per-item detail fetch aborts the
whole pull by raising a `PullError` that carries the current cursor value
(for a listing failure) or the item id (for a detail failure) together
with the HTTP status; the failing request is the last request issued (no
retry at this layer) and no partial job list is returned — the result is
the error alone. -/
theorem c5_transport_failure_aborts_pull {J : Type}
    (listing : SmartRecruiters.PullJobs.ListRequest →
      SmartRecruiters.PullJobs.ListResponse)
    (detail : String → SmartRecruiters.PullJobs.DetailResponse J)
    (limit fuel : Nat) (pageId : Option String) :
    (responseOk (listing ⟨limit, pageId⟩).status = false →
      SmartRecruiters.PullJobs.pull listing detail limit (fuel + 1) pageId =
        ([⟨limit, pageId⟩],
          .error (.pageFail pageId (listing ⟨limit, pageId⟩).status))) ∧
    (∀ pre bad rest,
      responseOk (listing ⟨limit, pageId⟩).status = true →
      (listing ⟨limit, pageId⟩).content = pre ++ bad :: rest →
      (∀ id ∈ pre, responseOk (detail id).status = true) →
      responseOk (detail bad).status = false →
      SmartRecruiters.PullJobs.pull listing detail limit (fuel + 1) pageId =
        ([⟨limit, pageId⟩], .error (.jobFail bad (detail bad).status))) := by
  constructor
  · intro hbad
    simp [pull_succ, hbad]
  · intro pre bad rest hok hcontent hpre hbad
    have hne : (listing ⟨limit, pageId⟩).content ≠ [] := by
      simp [hcontent]
    rw [pull_succ]
    rw [hcontent, get_full_jobs_first_bad detail pre bad rest hpre hbad] at *
    simp [hok, hne, hcontent]

/-- Claim C5, witness: a listing request at cursor `None` answered with
status 500 aborts the pull with the error carrying that cursor and status
after exactly one request; and, in a second environment, a pull whose
first page lists jobs a and b, where detail of a succeeds but detail of b
is answered with 404, aborts with the error carrying the item id b and
status 404, again after exactly one listing request. -/
theorem c5_witness :
    SmartRecruiters.PullJobs.pull
      (fun _ => (⟨500, 0, none, []⟩ : SmartRecruiters.PullJobs.ListResponse))
      (fun _ => (⟨200, (0 : Nat)⟩ : SmartRecruiters.PullJobs.DetailResponse Nat))
      10 1 none = ([⟨10, none⟩], .error (.pageFail none 500)) ∧
    SmartRecruiters.PullJobs.pull
      (fun _ => (⟨200, 2, some "x", ["a", "b"]⟩ :
        SmartRecruiters.PullJobs.ListResponse))
      (fun id => if id = "a" then ⟨200, (1 : Nat)⟩ else ⟨404, 2⟩)
      10 1 none = ([⟨10, none⟩], .error (.jobFail "b" 404)) := by
  constructor
  · exact (c5_transport_failure_aborts_pull _ _ 10 0 none).1 (by decide)
  · exact (c5_transport_failure_aborts_pull _ _ 10 0 none).2 ["a"] "b" []
      (by decide) (by decide) (by decide) (by decide)

/-- Claim C5, counterexample to the claim as stated: the claim demands
that ANY non-2xx listing response abort the pull, but the code tests
`response.ok`, which only fails for status 400 and above. With the first
listing request answered with status 304 (non-2xx, for example Not
Modified, which the requests library does not follow as a redirect and
reports as ok), the pull does not abort: it parses the body, fetches the
detail of the listed job and continues to the next page, returning a
successful result. -/
theorem c5_counterexample :
    (304 : Nat) / 100 ≠ 2 ∧
    SmartRecruiters.PullJobs.pull
      (fun req => if req.pageId = none then
          (⟨304, 1, some "x", ["a"]⟩ : SmartRecruiters.PullJobs.ListResponse)
        else ⟨200, 0, none, []⟩)
      (fun _ => (⟨200, (42 : Nat)⟩ : SmartRecruiters.PullJobs.DetailResponse Nat))
      10 2 none = ([⟨10, none⟩, ⟨10, some "x"⟩], .ok [42]) := by
  constructor
  · decide
  · rfl

/-- Claim C7 (amended): the SmartRecruiters `PullJobsAction` passes the
caller-supplied `limit` field through to every listing request unmodified:
no clamping to the vendor maximum and no rejection happens (the `limit`
pydantic field carries only a description mentioning the maximum of 100,
with no validator), so the very first listing request already carries the
caller value verbatim, whatever it is. -/
theorem c7_page_size_passed_through {J : Type}
    (listing : SmartRecruiters.PullJobs.ListRequest →
      SmartRecruiters.PullJobs.ListResponse)
    (detail : String → SmartRecruiters.PullJobs.DetailResponse J)
    (limit fuel : Nat) (pageId : Option String) :
    (SmartRecruiters.PullJobs.pull listing detail limit
      (fuel + 1) pageId).1.head? = some ⟨limit, pageId⟩ := by
  rw [pull_succ]
  by_cases hok : responseOk (listing ⟨limit, pageId⟩).status
  · by_cases hempty : (listing ⟨limit, pageId⟩).content = []
    · simp [hok, hempty]
    · cases hjobs : SmartRecruiters.PullJobs.get_full_jobs detail
          (listing ⟨limit, pageId⟩).content with
      | error e => simp [hok, hempty, hjobs]
      | ok jobs => simp [hok, hempty, hjobs]
  · simp [hok]

/-- Claim C7, counterexample to the claim as stated: with the caller field
`limit = 500`, strictly above the vendor maximum of 100, the pull issues a
listing request whose page size parameter is 500 — the value is neither
clamped nor rejected. -/
theorem c7_counterexample :
    (SmartRecruiters.PullJobs.pull
      (fun _ => (⟨200, 0, none, []⟩ : SmartRecruiters.PullJobs.ListResponse))
      (fun _ => (⟨200, (0 : Nat)⟩ : SmartRecruiters.PullJobs.DetailResponse Nat))
      500 1 none).1 = [⟨500, none⟩] ∧
    500 > SmartRecruiters.SMARTRECRUITERS_JOBS_ENDPOINT_LIMIT := by
  constructor
  · rfl
  · decide

/-- Helper: every tag appended by `create_tag` for field `f` is named
`breezy_hr_f`. -/
theorem create_tag_name (f : String) (v : BreezyHR.PullJobs.FieldVal)
    (t : BreezyHR.PullJobs.Tag) (h : t ∈ BreezyHR.PullJobs.create_tag f v) :
    t.name = "breezy_hr_" ++ f := by
  cases v with
  | vnone => simp [BreezyHR.PullJobs.create_tag] at h
  | vstr s =>
    simp [BreezyHR.PullJobs.create_tag] at h
    simp [h]
  | vobj nm =>
    simp [BreezyHR.PullJobs.create_tag] at h
    simp [h]

/-- Claim C3 (amended): for the optional BreezyHR fields handled through
`create_tag`, the format does not raise and a tag is created only when the
source value is non-null (here: a null `type` yields no `breezy_hr_type`
tag); HOWEVER the `breezy_hr_remote` tag is appended unconditionally — a
null `location.is_remote` still yields a `breezy_hr_remote` tag whose
value is null — and a record missing the required `name` field does not
raise MappingFailure: the canonical name is simply null. -/
theorem c3_optional_field_handling (j : BreezyHR.PullJobs.BreezyJob) :
    (j.type = .vnone →
      ∀ t ∈ (BreezyHR.PullJobs.format j).tags, t.name ≠ "breezy_hr_type") ∧
    (⟨"breezy_hr_remote", j.location.is_remote.map PyLit.b⟩ ∈
      (BreezyHR.PullJobs.format j).tags) ∧
    (j.name = none → (BreezyHR.PullJobs.format j).name = none) := by
  refine ⟨?_, ?_, ?_⟩
  · intro hT t ht
    simp only [BreezyHR.PullJobs.format, List.mem_append] at ht
    rcases ht with ((((((h | h) | h) | h) | h) | h) | h) | h
    · rw [hT] at h
      simp [BreezyHR.PullJobs.create_tag] at h
    · rw [create_tag_name _ _ _ h]
      decide
    · rw [create_tag_name _ _ _ h]
      decide
    · rw [create_tag_name _ _ _ h]
      decide
    · rw [create_tag_name _ _ _ h]
      decide
    · rw [create_tag_name _ _ _ h]
      decide
    · rw [create_tag_name _ _ _ h]
      decide
    · simp at h
      simp [h]
  · simp [BreezyHR.PullJobs.format]
  · intro h
    simp [BreezyHR.PullJobs.format, h]

/-- Claim C3, witness: a concrete position with a null `type` and a null
`name`, whose `is_remote` flag is set: no `breezy_hr_type` tag is
produced, the remote tag is present with value true, and the canonical
name is null (no exception anywhere). -/
theorem c3_witness :
    (∀ t ∈ (BreezyHR.PullJobs.format
        { name := none, friendly_id := some "42",
          location := { country := ⟨some "DE"⟩, city := some "Berlin",
                        name := some "Berlin", is_remote := some true },
          description := "d", type := .vnone, experience := .vstr "senior",
          education := .vnone, department := .vnone, requisition_id := .vnone,
          category := .vnone, candidate_type := .vnone,
          creation_date := none, updated_date := none }).tags,
      t.name ≠ "breezy_hr_type") ∧
    (⟨"breezy_hr_remote", some (PyLit.b true)⟩ ∈
      (BreezyHR.PullJobs.format
        { name := none, friendly_id := some "42",
          location := { country := ⟨some "DE"⟩, city := some "Berlin",
                        name := some "Berlin", is_remote := some true },
          description := "d", type := .vnone, experience := .vstr "senior",
          education := .vnone, department := .vnone, requisition_id := .vnone,
          category := .vnone, candidate_type := .vnone,
          creation_date := none, updated_date := none }).tags) ∧
    (BreezyHR.PullJobs.format
        { name := none, friendly_id := some "42",
          location := { country := ⟨some "DE"⟩, city := some "Berlin",
                        name := some "Berlin", is_remote := some true },
          description := "d", type := .vnone, experience := .vstr "senior",
          education := .vnone, department := .vnone, requisition_id := .vnone,
          category := .vnone, candidate_type := .vnone,
          creation_date := none, updated_date := none }).name = none := by
  obtain ⟨h1, h2, h3⟩ := c3_optional_field_handling
    { name := none, friendly_id := some "42",
      location := { country := ⟨some "DE"⟩, city := some "Berlin",
                    name := some "Berlin", is_remote := some true },
      description := "d", type := .vnone, experience := .vstr "senior",
      education := .vnone, department := .vnone, requisition_id := .vnone,
      category := .vnone, candidate_type := .vnone,
      creation_date := none, updated_date := none }
  exact ⟨h1 rfl, h2, h3 rfl⟩

/-- Claim C3, counterexample to the claim as stated: a BreezyHR position
whose optional `location.is_remote` field is null. The claim requires the
corresponding tag to be omitted (a tag created only when the source value
is non-null), but the format produces exactly one tag: `breezy_hr_remote`
with a null value, created from the null source field. -/
theorem c3_counterexample :
    (BreezyHR.PullJobs.format
      { name := some "Dev", friendly_id := some "j1",
        location := { country := ⟨some "FR"⟩, city := some "Paris",
                      name := some "Paris", is_remote := none },
        description := "x", type := .vnone, experience := .vnone,
        education := .vnone, department := .vnone, requisition_id := .vnone,
        category := .vnone, candidate_type := .vnone,
        creation_date := none, updated_date := none }).tags =
      [⟨"breezy_hr_remote", none⟩] := rfl

/-- Claim C4 (amended): when the company id is absent from the
parameters, the BreezyHR pull does perform the secondary lookup-by-name
call before the primary positions request; but when no entry of the
lookup response matches the configured name, NO failure is raised and no
MappingFailure exists in this code: `get_company_id` resolves to `None`
and the primary request is issued anyway, against a url containing the
literal string "None". -/
theorem c4_lookup_without_match_proceeds (company_name : Option String)
    (companiesStatus : Nat) (companies : List BreezyHR.Company)
    (positions : String → Nat × List BreezyHR.PullJobs.BreezyJob)
    (hok : responseOk companiesStatus = true)
    (hnomatch : BreezyHR.findCompanyId companies company_name = none)
    (hpos : responseOk
      (positions "https://api.breezy.hr/v3/company/None/positions?").1 = true) :
    BreezyHR.PullJobs.pull none company_name companiesStatus companies
        positions =
      (["https://api.breezy.hr/v3/companies",
        "https://api.breezy.hr/v3/company/None/positions?"],
        .ok (positions
          "https://api.breezy.hr/v3/company/None/positions?").2) := by
  have hurl : "https://api.breezy.hr/v3/company/" ++ pyStr none ++
      "/positions?" = "https://api.breezy.hr/v3/company/None/positions?" := rfl
  simp [BreezyHR.PullJobs.pull, BreezyHR.PullJobs.get_company_id, hok,
    hnomatch, hurl, hpos]

/-- Claim C4, witness: with no configured company id, the configured name
"X", and a companies response containing only a company named "Y", the
lookup matches nothing, and the pull issues the companies request followed
by the positions request at the literal-"None" url, succeeding. -/
theorem c4_witness :
    BreezyHR.findCompanyId [⟨"Y", "id1"⟩] (some "X") = none ∧
    BreezyHR.PullJobs.pull none (some "X") 200 [⟨"Y", "id1"⟩]
        (fun _ => (201, [])) =
      (["https://api.breezy.hr/v3/companies",
        "https://api.breezy.hr/v3/company/None/positions?"], .ok []) :=
  ⟨by decide,
    c4_lookup_without_match_proceeds (some "X") 200 [⟨"Y", "id1"⟩]
      (fun _ => (201, [])) (by decide) (by decide) (by decide)⟩

/-- Claim C4, counterexample to the claim as stated: the claim requires
the operation to fail with a MappingFailure when the lookup finds no
matching name; instead, with company name "X" and a lookup body whose only
entry is named "Y", the pull returns successfully after issuing the
positions request with the unresolved identifier rendered as the literal
"None" in the url. -/
theorem c4_counterexample :
    BreezyHR.PullJobs.pull none (some "X") 200 [⟨"Y", "id1"⟩]
        (fun _ => (200, [])) =
      (["https://api.breezy.hr/v3/companies",
        "https://api.breezy.hr/v3/company/None/positions?"], .ok []) := rfl

/-- Claim C6: upsert semantics of the BreezyHR profile push within the
scoped company `cid`. For the pushed profile, when the email lookup
returns a non-empty candidate list, the writer issues a PUT (an update,
never a create POST) against the MATCHED candidate id — the recorded
outcome of the item is the successful update; when the lookup returns no
match, it issues a create POST instead (and no PUT). -/
theorem c6_upsert_update_on_match
    (cid : String) (company_name : Option String) (position_id : String)
    (companiesResp : Nat × List BreezyHR.Company)
    (searchResp : Nat × List BreezyHR.PushProfile.Candidate)
    (writeStatus : Nat) (profile : BreezyHR.PushProfile.BreezyProfile)
    (rest : List BreezyHR.PushProfile.BreezyProfile)
    (hsearch : responseOk searchResp.1 = true)
    (hwrite : responseOk writeStatus = true) :
    (∀ c cs, searchResp.2 = c :: cs →
      BreezyHR.PushProfile.push (some cid) company_name position_id
          companiesResp searchResp writeStatus (profile :: rest) =
        ([⟨"GET", "https://api.breezy.hr/v3/company/" ++ cid ++
            "/candidates/search?email_address=" ++
            pyStr profile.email_address, none⟩,
          ⟨"PUT", "https://api.breezy.hr/v3/company/" ++ cid ++
            "/position/" ++ position_id ++ "/candidate/" ++ c._id,
            some profile⟩], .ok ())) ∧
    (searchResp.2 = [] →
      BreezyHR.PushProfile.push (some cid) company_name position_id
          companiesResp searchResp writeStatus (profile :: rest) =
        ([⟨"GET", "https://api.breezy.hr/v3/company/" ++ cid ++
            "/candidates/search?email_address=" ++
            pyStr profile.email_address, none⟩,
          ⟨"POST", "https://api.breezy.hr/v3/company/" ++ cid ++
            "/position/" ++ position_id ++ "/candidates",
            some profile⟩], .ok ())) := by
  constructor
  · intro c cs hc
    simp [BreezyHR.PushProfile.push, BreezyHR.PushProfile.resolveCompany,
      hc, hsearch, hwrite, pyStr]
  · intro hc
    simp [BreezyHR.PushProfile.push, BreezyHR.PushProfile.resolveCompany,
      hc, hsearch, hwrite, pyStr]

/-- Claim C6, witness: with company id "co", position "pos1" and a
concrete profile, a lookup response listing the existing candidate
"cand7" produces exactly one GET then one PUT against
`.../candidate/cand7`; an empty lookup response produces exactly one GET
then one create POST. -/
theorem c6_witness :
    BreezyHR.PushProfile.push (some "co") none "pos1" (200, [])
        (200, [⟨"cand7"⟩]) 201
        [⟨some "N", none, some "n@x.io", none, none, none, [], [], [],
          none, []⟩] =
      ([⟨"GET",
          "https://api.breezy.hr/v3/company/co/candidates/search?email_address=n@x.io",
          none⟩,
        ⟨"PUT", "https://api.breezy.hr/v3/company/co/position/pos1/candidate/cand7",
          some ⟨some "N", none, some "n@x.io", none, none, none, [], [], [],
            none, []⟩⟩], .ok ()) ∧
    BreezyHR.PushProfile.push (some "co") none "pos1" (200, []) (200, []) 201
        [⟨some "N", none, some "n@x.io", none, none, none, [], [], [],
          none, []⟩] =
      ([⟨"GET",
          "https://api.breezy.hr/v3/company/co/candidates/search?email_address=n@x.io",
          none⟩,
        ⟨"POST", "https://api.breezy.hr/v3/company/co/position/pos1/candidates",
          some ⟨some "N", none, some "n@x.io", none, none, none, [], [], [],
            none, []⟩⟩], .ok ()) := by
  constructor
  · exact (c6_upsert_update_on_match "co" none "pos1" (200, [])
      (200, [⟨"cand7"⟩]) 201 _ [] (by decide) (by decide)).1 ⟨"cand7"⟩ [] rfl
  · exact (c6_upsert_update_on_match "co" none "pos1" (200, [])
      (200, []) 201 _ [] (by decide) (by decide)).2 rfl

/-- Claim C8: coordinate handling. On the SmartRecruiters read path, a
missing latitude/longitude stays unset (never defaulted to 0) and a
present one is parsed with `float`; on the SmartRecruiters write path,
whose candidate schema disallows null coordinates, an absent `lat`/`lng`
is defaulted to 0 (in both the populated-fields and the empty-fields
branches of the location assembly). -/
theorem c8_coordinate_handling
    (location : Option SmartRecruiters.PullJobs.JobLocation)
    (loc : SmartRecruiters.PushProfile.ProfileLocation) :
    ((location.getD SmartRecruiters.PullJobs.emptyLocation).latitude = none →
      (SmartRecruiters.PullJobs.formatLocation location).lat = none) ∧
    ((location.getD SmartRecruiters.PullJobs.emptyLocation).longitude = none →
      (SmartRecruiters.PullJobs.formatLocation location).lng = none) ∧
    (∀ v, (location.getD SmartRecruiters.PullJobs.emptyLocation).latitude =
        some v →
      (SmartRecruiters.PullJobs.formatLocation location).lat =
        some (SmartRecruiters.PullJobs.pyFloat v)) ∧
    (∀ v, (location.getD SmartRecruiters.PullJobs.emptyLocation).longitude =
        some v →
      (SmartRecruiters.PullJobs.formatLocation location).lng =
        some (SmartRecruiters.PullJobs.pyFloat v)) ∧
    (loc.lat = none →
      ("lat", SmartRecruiters.PushProfile.PyV.num 0) ∈
        SmartRecruiters.PushProfile.candidateLocation loc) ∧
    (loc.lng = none →
      ("lng", SmartRecruiters.PushProfile.PyV.num 0) ∈
        SmartRecruiters.PushProfile.candidateLocation loc) := by
  refine ⟨?_, ?_, ?_, ?_, ?_, ?_⟩
  · intro h
    simp [SmartRecruiters.PullJobs.formatLocation, h]
  · intro h
    simp [SmartRecruiters.PullJobs.formatLocation, h]
  · intro v h
    simp [SmartRecruiters.PullJobs.formatLocation, h]
  · intro v h
    simp [SmartRecruiters.PullJobs.formatLocation, h]
  · intro h
    cases hf : loc.fields with
    | none => simp [SmartRecruiters.PushProfile.candidateLocation, hf]
    | some f => simp [SmartRecruiters.PushProfile.candidateLocation, hf, h]
  · intro h
    cases hf : loc.fields with
    | none => simp [SmartRecruiters.PushProfile.candidateLocation, hf]
    | some f => simp [SmartRecruiters.PushProfile.candidateLocation, hf, h]

/-- Claim C8, witness: a raw job location with no latitude and longitude
7 maps to canonical `lat = None`, `lng = 7.0`; a profile location with no
coordinates and populated fields produces candidate coordinates defaulted
to 0. -/
theorem c8_witness :
    (SmartRecruiters.PullJobs.formatLocation
      (some ⟨none, some 7, some "FR", none, some "Paris", none⟩)).lat =
        none ∧
    (SmartRecruiters.PullJobs.formatLocation
      (some ⟨none, some 7, some "FR", none, some "Paris", none⟩)).lng =
        some (SmartRecruiters.PullJobs.pyFloat 7) ∧
    ("lat", SmartRecruiters.PushProfile.PyV.num 0) ∈
      SmartRecruiters.PushProfile.candidateLocation
        ⟨some ⟨some "Lyon", some "FR", none⟩, none, none⟩ ∧
    ("lng", SmartRecruiters.PushProfile.PyV.num 0) ∈
      SmartRecruiters.PushProfile.candidateLocation
        ⟨some ⟨some "Lyon", some "FR", none⟩, none, none⟩ := by
  obtain ⟨h1, _, _, h4, h5, h6⟩ := c8_coordinate_handling
    (some ⟨none, some 7, some "FR", none, some "Paris", none⟩)
    ⟨some ⟨some "Lyon", some "FR", none⟩, none, none⟩
  exact ⟨h1 rfl, h4 7 rfl, h5 rfl, h6 rfl⟩

/-- Claim C9: in all three connectors, `PushProfileAction.push` consumes
exactly one profile — the first of the sequence (`profile = next(data)`);
the remaining elements are never submitted and produce no per-item
outcome (the result of pushing `p :: rest` is literally the result of
pushing `[p]`, and the request trace carries only `p`); an empty sequence
raises StopIteration before any HTTP request is issued (empty trace). -/
theorem c9_push_consumes_only_first {α : Type} (job_id : String)
    (respond : α → Nat) (p : α) (rest : List α)
    (tjob_id : Option Nat) (trespond : α → Nat × Nat) (taddStatus : Nat)
    (bcompany_id bcompany_name : Option String) (bposition_id : String)
    (bcompanies : Nat × List BreezyHR.Company)
    (bsearch : Nat × List BreezyHR.PushProfile.Candidate) (bwrite : Nat)
    (bp : BreezyHR.PushProfile.BreezyProfile)
    (brest : List BreezyHR.PushProfile.BreezyProfile) :
    (SmartRecruiters.PushProfile.push job_id respond (p :: rest) =
        SmartRecruiters.PushProfile.push job_id respond [p] ∧
      (SmartRecruiters.PushProfile.push job_id respond (p :: rest)).1.map
        Prod.snd = [p] ∧
      SmartRecruiters.PushProfile.push job_id respond ([] : List α) =
        ([], .error .stopIteration)) ∧
    (Taleez.PushProfile.push tjob_id trespond taddStatus (p :: rest) =
        Taleez.PushProfile.push tjob_id trespond taddStatus [p] ∧
      Taleez.PushProfile.push tjob_id trespond taddStatus ([] : List α) =
        ([], .error .stopIteration)) ∧
    (BreezyHR.PushProfile.push bcompany_id bcompany_name bposition_id
        bcompanies bsearch bwrite (bp :: brest) =
        BreezyHR.PushProfile.push bcompany_id bcompany_name bposition_id
          bcompanies bsearch bwrite [bp] ∧
      BreezyHR.PushProfile.push bcompany_id bcompany_name bposition_id
          bcompanies bsearch bwrite [] = ([], .error .stopIteration)) := by
  refine ⟨⟨rfl, ?_, rfl⟩, ⟨rfl, rfl⟩, ⟨rfl, rfl⟩⟩
  by_cases h : responseOk (respond p) <;>
    simp [SmartRecruiters.PushProfile.push, h]

/-- Helper: the urls loop raises TypeError as soon as some entry carries a
string link (the string-key assignment into the `social_profiles` list). -/
theorem urlsStep_error (us : List BreezyHR.PushProfile.UrlEntry)
    (h : us.any (fun u => u.url.isSome) = true) :
    BreezyHR.PushProfile.urlsStep us = .error .typeError := by
  induction us with
  | nil => simp at h
  | cons u rest ih =>
    cases hu : u.url with
    | some s => simp [BreezyHR.PushProfile.urlsStep, hu]
    | none =>
      rw [List.any_cons, hu] at h
      simp only [Option.isSome_none, Bool.false_or] at h
      simp [BreezyHR.PushProfile.urlsStep, hu, ih h]

/-- Claim C10: for every hrflow profile whose `info.urls` list contains at
least one entry whose `url` field is a string, the BreezyHR
`PushProfileAction.format` raises (TypeError: `social_profiles` is
initialized as a list and then assigned through a string key) instead of
returning a vendor write record — no such profile can be formatted for
push. -/
theorem c10_format_raises_on_string_url (origin cover_letter : Option String)
    (data : BreezyHR.PushProfile.HrflowProfile)
    (us : List BreezyHR.PushProfile.UrlEntry)
    (hurls : data.info.urls = some us)
    (hsome : us.any (fun u => u.url.isSome) = true) :
    BreezyHR.PushProfile.format origin cover_letter data =
      .error .typeError := by
  simp [BreezyHR.PushProfile.format, BreezyHR.PushProfile.format_urls,
    hurls, urlsStep_error us hsome]

/-- Claim C10, witness: a concrete profile whose single url entry carries
the string link "http://x" cannot be formatted: the format raises
TypeError. -/
theorem c10_witness :
    ([⟨some "github", some "http://x"⟩] :
        List BreezyHR.PushProfile.UrlEntry).any (fun u => u.url.isSome) =
      true ∧
    BreezyHR.PushProfile.format none none
        ⟨⟨some "Z", some "z@x.io", none, none, none,
          some [⟨some "github", some "http://x"⟩], none⟩, [], [], none⟩ =
      .error .typeError :=
  ⟨by decide,
    c10_format_raises_on_string_url none none
      ⟨⟨some "Z", some "z@x.io", none, none, none,
        some [⟨some "github", some "http://x"⟩], none⟩, [], [], none⟩
      [⟨some "github", some "http://x"⟩] rfl (by decide)⟩
